import Mathlib

/-!
Verification of the Discovery Session Controller of the swipe/match app
(`src/App.js`, function `DiscoverScreen`, in particular the callbacks
`load` (lines 915-934) and `doSwipe` (lines 938-972)).

The controller's mutable state is the four React state cells
`suggestions`, `currentIndex`, `loading`, `swiping`.  The two operations
are modelled as trace generators: each run of `load` or `doSwipe` emits a
list of primitive actions (network requests, state-cell writes, alert
pop-ups) in exactly the order the source performs them; folding the trace
over a state yields the post-state.  Backend behaviour (the result of
`api.authFetch` plus `res.json()`) is a parameter of each operation:
either the promise chain rejects (network failure or unparsable body), or
it resolves with an HTTP ok flag and a parsed body.

`doSwipe` reads `suggestionsRef.current` again after its `await`, so its
resume phase is parametrised by the state live at resume time (`live`);
the non-interleaved run (`doSwipeNormalTrace`, `doSwipe`) instantiates
`live` with the pre-state after `setSwiping(true)`, while race claims
quantify over an arbitrary `live`.
-/

namespace Discover

/-- One candidate profile, reduced to the two fields the controller ever
reads: the identifier interpolated into the swipe URL and the display
name used in the match alert. -/
structure Candidate where
  id : Nat
  name : String
deriving DecidableEq

/-- The controller's state: the React state cells of DiscoverScreen that
the discovery session logic owns (`suggestions`, `currentIndex`,
`loading`, `swiping`).  The ref mirrors `suggestionsRef` /
`currentIndexRef` track `suggestions` / `currentIndex` and are not
modelled separately. -/
structure DState where
  suggestions : List Candidate
  currentIndex : Nat
  loading : Bool
  swiping : Bool
deriving DecidableEq

/-- Parsed JSON body of a resolved backend response, reduced to the
fields the controller reads: `detail` (error message), `suggestions`
(candidate list, `none` when absent or not an array) and the truthiness
of `match`. -/
structure Body where
  detail : Option String
  suggestions : Option (List Candidate)
  matchFlag : Bool
deriving DecidableEq

/-- Outcome of one `api.authFetch(...)` followed by `res.json()`:
`reject` when the fetch rejects or the body is unparsable (the awaited
promise chain throws), `resolve ok body` when it yields a response with
HTTP success flag `ok` and parsed body `body`. -/
inductive FetchOutcome where
  | reject (msg : String)
  | resolve (ok : Bool) (body : Body)
deriving DecidableEq

/-- A network request issued by the controller: `GET /suggestions` or
`POST /swipe/{id}?liked={liked}`. -/
inductive Req where
  | suggestions
  | swipe (id : Nat) (liked : Bool)
deriving DecidableEq

/-- URL rendering of a request, as interpolated in the source. -/
def Req.url : Req → String
  | Req.suggestions => "/suggestions"
  | Req.swipe id liked =>
      "/swipe/" ++ toString id ++ "?liked=" ++ (if liked then "true" else "false")

/-- Primitive effects of the controller, in source order: issuing a
network request, writing one of the four state cells, or showing an
alert (`Alert.alert title message`). -/
inductive Action where
  | request (r : Req)
  | setLoading (b : Bool)
  | setSwiping (b : Bool)
  | setSuggestions (l : List Candidate)
  | setCurrentIndex (n : Nat)
  | alert (title msg : String)
deriving DecidableEq

/-- Effect of one action on the state.  Requests and alerts do not touch
the session state. -/
def stepA (s : DState) : Action → DState
  | Action.request _ => s
  | Action.setLoading b => { s with loading := b }
  | Action.setSwiping b => { s with swiping := b }
  | Action.setSuggestions l => { s with suggestions := l }
  | Action.setCurrentIndex n => { s with currentIndex := n }
  | Action.alert _ _ => s

/-- Fold a trace of actions over a state. -/
def run (s : DState) (tr : List Action) : DState := tr.foldl stepA s

/-- JavaScript truthiness of `data && data.detail ? data.detail : 'Fout'`
(and of `data?.detail || 'Fout'`): an absent or empty detail string falls
back to the literal `Fout`. -/
def jsDetail (d : Option String) : String :=
  match d with
  | some m => if m.isEmpty then "Fout" else m
  | none => "Fout"

/-- Trace of one run of `load` (src/App.js lines 915-934) given the
pre-state and the backend outcome.  Guard: `if (swiping || loading)
return []`.  Otherwise `setLoading(true)`, fetch `/suggestions`; on a
throw, alert; on `!res.ok`, alert with the detail; on success install the
new suggestion list (empty when the body carries none) and reset the
index to 0; in all cases finally `setLoading(false)`. -/
def loadTrace (s : DState) (r : FetchOutcome) : List Action :=
  if s.swiping || s.loading then []
  else
    [Action.setLoading true, Action.request Req.suggestions] ++
    (match r with
     | FetchOutcome.reject msg => [Action.alert "discover" msg]
     | FetchOutcome.resolve ok body =>
        if ok then
          [Action.setSuggestions (body.suggestions.getD []),
           Action.setCurrentIndex 0]
        else
          [Action.alert "discover" (jsDetail body.detail)]) ++
    [Action.setLoading false]

/-- Value the `load` promise resolves to: the guard and every `catch`
path return `[]`; the success path returns the freshly installed list. -/
def loadReturn (s : DState) (r : FetchOutcome) : List Candidate :=
  if s.swiping || s.loading then []
  else
    match r with
    | FetchOutcome.reject _ => []
    | FetchOutcome.resolve ok body => if ok then body.suggestions.getD [] else []

/-- Post-state of one run of `load`. -/
def load (s : DState) (r : FetchOutcome) : DState := run s (loadTrace s r)

/-- Pre-suspension phase of `doSwipe` (src/App.js lines 939-944): the
busy guard, the snapshot `idx = currentIndexRef.current`, and the bounds
check `if (idx >= suggs.length) return` together with the snapshot
`currentUser = suggs[idx]`. -/
def doSwipeGuard (s : DState) : Option (Nat × Candidate) :=
  if s.swiping || s.loading then none
  else
    match s.suggestions[s.currentIndex]? with
    | none => none
    | some c => some (s.currentIndex, c)

/-- Resume phase of `doSwipe` after the awaited swipe call (src/App.js
lines 948-971), parametrised by the snapshot `(idx, currentUser)`, the
swipe outcome, the state `live` at resume time (the source re-reads
`suggestionsRef.current.length` here), and the backend outcome of the
nested `load()` on the exhaustion path. -/
def doSwipeResume (idx : Nat) (currentUser : Candidate) (r : FetchOutcome)
    (live : DState) (loadR : FetchOutcome) : List Action :=
  match r with
  | FetchOutcome.reject msg =>
      [Action.alert "discover" msg, Action.setSwiping false]
  | FetchOutcome.resolve ok body =>
      if ok then
        (if body.matchFlag then
          [Action.alert "itsAMatch" (currentUser.name ++ "!")]
        else []) ++
        (if idx + 1 < live.suggestions.length then
          [Action.setCurrentIndex (idx + 1), Action.setSwiping false]
        else
          Action.setSwiping false ::
            loadTrace { live with swiping := false } loadR)
      else
        [Action.alert "discover" (jsDetail body.detail), Action.setSwiping false]

/-- Trace of one run of `doSwipe` (src/App.js lines 938-972).  When the
guard refuses, nothing happens.  Otherwise `setSwiping(true)`, the swipe
request for the snapshotted candidate, and the resume phase. -/
def doSwipeTrace (s : DState) (liked : Bool) (r : FetchOutcome)
    (live : DState) (loadR : FetchOutcome) : List Action :=
  match doSwipeGuard s with
  | none => []
  | some (idx, c) =>
      Action.setSwiping true :: Action.request (Req.swipe c.id liked) ::
        doSwipeResume idx c r live loadR

/-- Trace of an uninterleaved run of `doSwipe`: the live state at resume
time is the pre-state after `setSwiping(true)`. -/
def doSwipeNormalTrace (s : DState) (liked : Bool) (r : FetchOutcome)
    (loadR : FetchOutcome) : List Action :=
  doSwipeTrace s liked r { s with swiping := true } loadR

/-- Post-state of an uninterleaved run of `doSwipe`. -/
def doSwipe (s : DState) (liked : Bool) (r : FetchOutcome)
    (loadR : FetchOutcome) : DState :=
  run s (doSwipeNormalTrace s liked r loadR)

/-- Derived view state: the current candidate `suggestions[currentIndex]`
(src/App.js line 974), none when the batch is exhausted. -/
def currentProfile (s : DState) : Option Candidate :=
  s.suggestions[s.currentIndex]?

/-- Initial state of DiscoverScreen: empty batch, index 0, not busy. -/
def init : DState :=
  { suggestions := [], currentIndex := 0, loading := false, swiping := false }

/-- States reachable from the initial state by any sequence of `load`
and `doSwipe` operations with arbitrary backend outcomes. -/
inductive Reachable : DState → Prop where
  | init : Reachable init
  | refillStep (s : DState) (r : FetchOutcome) :
      Reachable s → Reachable (load s r)
  | decideStep (s : DState) (liked : Bool) (r loadR : FetchOutcome) :
      Reachable s → Reachable (doSwipe s liked r loadR)

/-- An action that clears one of the two busy flags. -/
def clearsBusy : Action → Bool
  | Action.setSwiping false => true
  | Action.setLoading false => true
  | _ => false

/-- The swipe requests contained in a trace. -/
def swipeRequests : List Action → List Req
  | [] => []
  | Action.request (Req.swipe id liked) :: tr => Req.swipe id liked :: swipeRequests tr
  | _ :: tr => swipeRequests tr

/-- Truth of "the last action of the trace clears a busy flag". -/
def lastClearsBusy (tr : List Action) : Bool :=
  match tr.getLast? with
  | some a => clearsBusy a
  | none => false

/-- Truth of "the trace shows no alert". -/
def noAlerts (tr : List Action) : Bool :=
  tr.all fun a =>
    match a with
    | Action.alert _ _ => false
    | _ => true

/-! Concrete fixtures used by the counterexample and the witnesses. -/

/-- Candidate A of the worked scenarios. -/
def cA : Candidate := { id := 1, name := "Anna" }

/-- Candidate B of the worked scenarios. -/
def cB : Candidate := { id := 2, name := "Bram" }

/-- Candidate C of the worked scenarios. -/
def cC : Candidate := { id := 3, name := "Cleo" }

/-- Idle session holding the single-candidate batch of spec Scenario 3. -/
def sA : DState :=
  { suggestions := [cA], currentIndex := 0, loading := false, swiping := false }

/-- Idle session holding a batch of three candidates at cursor 0. -/
def sABC : DState :=
  { suggestions := [cA, cB, cC], currentIndex := 0, loading := false, swiping := false }

/-- Session with a load already in flight. -/
def sBusy : DState :=
  { suggestions := [cA], currentIndex := 0, loading := true, swiping := false }

/-- Externally reset session, simulating a race while a decide is in
flight: a different batch at a different cursor. -/
def sReset : DState :=
  { suggestions := [cB, cC], currentIndex := 1, loading := false, swiping := true }

/-- Successful list-candidates body carrying three suggestions. -/
def bodyABC : Body :=
  { detail := none, suggestions := some [cA, cB, cC], matchFlag := false }

/-- Successful record-decision body, no mutual match. -/
def bodyNoMatch : Body :=
  { detail := none, suggestions := none, matchFlag := false }

/-- Successful record-decision body reporting a mutual match. -/
def bodyMatch : Body :=
  { detail := none, suggestions := none, matchFlag := true }

/-- Failing body of a non-2xx response. -/
def bodyErr : Body :=
  { detail := some "Geen suggesties", suggestions := none, matchFlag := false }

/-- Rejected network call. -/
def rNet : FetchOutcome := FetchOutcome.reject "Network request failed"

/-- Exhausted session: nonempty batch with the cursor past the last
candidate. -/
def sExh : DState :=
  { suggestions := [cA], currentIndex := 1, loading := false, swiping := false }

/-! Helper lemmas characterising the two operations case by case. -/

lemma eta_swiping (s : DState) (h : s.swiping = false) :
    { s with swiping := false } = s := by
  cases s
  simp_all

lemma eta_loading (s : DState) (h : s.loading = false) :
    { s with loading := false } = s := by
  cases s
  simp_all

lemma loadTrace_busy (s : DState) (r : FetchOutcome)
    (h : s.swiping = true ∨ s.loading = true) : loadTrace s r = [] := by
  rcases h with h | h <;> simp [loadTrace, h]

lemma load_busy (s : DState) (r : FetchOutcome)
    (h : s.swiping = true ∨ s.loading = true) : load s r = s := by
  rw [load, loadTrace_busy s r h]
  rfl

lemma loadTrace_reject (s : DState) (msg : String)
    (hs : s.swiping = false) (hl : s.loading = false) :
    loadTrace s (FetchOutcome.reject msg) =
      [Action.setLoading true, Action.request Req.suggestions,
       Action.alert "discover" msg, Action.setLoading false] := by
  simp [loadTrace, hs, hl]

lemma load_reject (s : DState) (msg : String)
    (hs : s.swiping = false) (hl : s.loading = false) :
    load s (FetchOutcome.reject msg) = s := by
  rw [load, loadTrace_reject s msg hs hl]
  simp [run, stepA]
  exact eta_loading s hl

lemma loadTrace_httpErr (s : DState) (body : Body)
    (hs : s.swiping = false) (hl : s.loading = false) :
    loadTrace s (FetchOutcome.resolve false body) =
      [Action.setLoading true, Action.request Req.suggestions,
       Action.alert "discover" (jsDetail body.detail), Action.setLoading false] := by
  simp [loadTrace, hs, hl]

lemma load_httpErr (s : DState) (body : Body)
    (hs : s.swiping = false) (hl : s.loading = false) :
    load s (FetchOutcome.resolve false body) = s := by
  rw [load, loadTrace_httpErr s body hs hl]
  simp [run, stepA]
  exact eta_loading s hl

lemma loadTrace_ok (s : DState) (body : Body)
    (hs : s.swiping = false) (hl : s.loading = false) :
    loadTrace s (FetchOutcome.resolve true body) =
      [Action.setLoading true, Action.request Req.suggestions,
       Action.setSuggestions (body.suggestions.getD []),
       Action.setCurrentIndex 0, Action.setLoading false] := by
  simp [loadTrace, hs, hl]

lemma load_ok (s : DState) (body : Body)
    (hs : s.swiping = false) (hl : s.loading = false) :
    load s (FetchOutcome.resolve true body) =
      { s with suggestions := body.suggestions.getD [],
               currentIndex := 0, loading := false } := by
  rw [load, loadTrace_ok s body hs hl]
  simp [run, stepA]

lemma doSwipeGuard_busy (s : DState)
    (h : s.swiping = true ∨ s.loading = true) : doSwipeGuard s = none := by
  rcases h with h | h <;> simp [doSwipeGuard, h]

lemma doSwipeGuard_spec (s : DState) (idx : Nat) (c : Candidate)
    (h : doSwipeGuard s = some (idx, c)) :
    s.swiping = false ∧ s.loading = false ∧ idx = s.currentIndex ∧
      s.suggestions[idx]? = some c := by
  by_cases hb : (s.swiping || s.loading) = true
  · rw [doSwipeGuard] at h
    simp [hb] at h
  · simp only [Bool.or_eq_true, not_or, Bool.not_eq_true] at hb
    obtain ⟨hs, hl⟩ := hb
    rw [doSwipeGuard] at h
    simp only [hs, hl, Bool.or_self, Bool.false_eq_true, if_false] at h
    cases hg : s.suggestions[s.currentIndex]? with
    | none => rw [hg] at h; simp at h
    | some c2 =>
        rw [hg] at h
        simp at h
        obtain ⟨h1, h2⟩ := h
        subst h1
        subst h2
        exact ⟨hs, hl, rfl, hg⟩

lemma doSwipe_none (s : DState) (liked : Bool) (r loadR : FetchOutcome)
    (h : doSwipeGuard s = none) :
    doSwipe s liked r loadR = s ∧ doSwipeNormalTrace s liked r loadR = [] := by
  have ht : doSwipeNormalTrace s liked r loadR = [] := by
    rw [doSwipeNormalTrace, doSwipeTrace, h]
  exact ⟨by rw [doSwipe, ht]; rfl, ht⟩

lemma doSwipeNormalTrace_some (s : DState) (liked : Bool) (r loadR : FetchOutcome)
    (idx : Nat) (c : Candidate) (h : doSwipeGuard s = some (idx, c)) :
    doSwipeNormalTrace s liked r loadR =
      Action.setSwiping true :: Action.request (Req.swipe c.id liked) ::
        doSwipeResume idx c r { s with swiping := true } loadR := by
  rw [doSwipeNormalTrace, doSwipeTrace, h]

lemma doSwipe_reject (s : DState) (liked : Bool) (msg : String)
    (loadR : FetchOutcome) (idx : Nat) (c : Candidate)
    (h : doSwipeGuard s = some (idx, c)) :
    doSwipe s liked (FetchOutcome.reject msg) loadR = s := by
  obtain ⟨hs, hl, hi, hg⟩ := doSwipeGuard_spec s idx c h
  rw [doSwipe, doSwipeNormalTrace_some s liked _ loadR idx c h, doSwipeResume]
  simp [run, stepA]
  exact eta_swiping s hs

lemma doSwipe_httpErr (s : DState) (liked : Bool) (body : Body)
    (loadR : FetchOutcome) (idx : Nat) (c : Candidate)
    (h : doSwipeGuard s = some (idx, c)) :
    doSwipe s liked (FetchOutcome.resolve false body) loadR = s := by
  obtain ⟨hs, hl, hi, hg⟩ := doSwipeGuard_spec s idx c h
  rw [doSwipe, doSwipeNormalTrace_some s liked _ loadR idx c h, doSwipeResume]
  simp [run, stepA]
  exact eta_swiping s hs

lemma doSwipe_advance (s : DState) (liked : Bool) (body : Body)
    (loadR : FetchOutcome) (idx : Nat) (c : Candidate)
    (h : doSwipeGuard s = some (idx, c))
    (hlt : idx + 1 < s.suggestions.length) :
    doSwipe s liked (FetchOutcome.resolve true body) loadR =
      { s with currentIndex := idx + 1, swiping := false } := by
  obtain ⟨hs, hl, hi, hg⟩ := doSwipeGuard_spec s idx c h
  rw [doSwipe, doSwipeNormalTrace_some s liked _ loadR idx c h, doSwipeResume]
  cases hm : body.matchFlag <;> simp [hlt, run, stepA]

lemma doSwipe_exhaust (s : DState) (liked : Bool) (body : Body)
    (loadR : FetchOutcome) (idx : Nat) (c : Candidate)
    (h : doSwipeGuard s = some (idx, c))
    (hge : ¬ idx + 1 < s.suggestions.length) :
    doSwipe s liked (FetchOutcome.resolve true body) loadR = load s loadR := by
  obtain ⟨hs, hl, hi, hg⟩ := doSwipeGuard_spec s idx c h
  have hback : DState.mk s.suggestions s.currentIndex s.loading false = s := by
    cases s
    simp_all
  have hlive : ¬ idx + 1 < ({ s with swiping := true } : DState).suggestions.length := by
    simpa using hge
  rw [doSwipe, doSwipeNormalTrace_some s liked _ loadR idx c h, doSwipeResume]
  cases hm : body.matchFlag <;> simp [hlive, run, stepA] <;> rw [hback] <;> rfl

lemma inv_load (s : DState) (r : FetchOutcome)
    (ih : s.currentIndex ≤ s.suggestions.length) :
    (load s r).currentIndex ≤ (load s r).suggestions.length := by
  by_cases hs : s.swiping = true
  · rw [load_busy s r (Or.inl hs)]; exact ih
  · by_cases hl : s.loading = true
    · rw [load_busy s r (Or.inr hl)]; exact ih
    · rw [Bool.not_eq_true] at hs hl
      cases r with
      | reject msg => rw [load_reject s msg hs hl]; exact ih
      | resolve ok body =>
          cases ok with
          | false => rw [load_httpErr s body hs hl]; exact ih
          | true => rw [load_ok s body hs hl]; simp

lemma inv_doSwipe (s : DState) (liked : Bool) (r loadR : FetchOutcome)
    (ih : s.currentIndex ≤ s.suggestions.length) :
    (doSwipe s liked r loadR).currentIndex ≤
      (doSwipe s liked r loadR).suggestions.length := by
  cases hg : doSwipeGuard s with
  | none => rw [(doSwipe_none s liked r loadR hg).1]; exact ih
  | some p =>
      obtain ⟨idx, c⟩ := p
      cases r with
      | reject msg => rw [doSwipe_reject s liked msg loadR idx c hg]; exact ih
      | resolve ok body =>
          cases ok with
          | false => rw [doSwipe_httpErr s liked body loadR idx c hg]; exact ih
          | true =>
              by_cases hlt : idx + 1 < s.suggestions.length
              · rw [doSwipe_advance s liked body loadR idx c hg hlt]
                simpa using Nat.le_of_lt hlt
              · rw [doSwipe_exhaust s liked body loadR idx c hg hlt]
                exact inv_load s loadR ih

lemma load_flags (s : DState) (r : FetchOutcome)
    (hs : s.swiping = false) (hl : s.loading = false) :
    (load s r).loading = false ∧ (load s r).swiping = false := by
  cases r with
  | reject msg => rw [load_reject s msg hs hl]; exact ⟨hl, hs⟩
  | resolve ok body =>
      cases ok with
      | false => rw [load_httpErr s body hs hl]; exact ⟨hl, hs⟩
      | true => rw [load_ok s body hs hl]; exact ⟨rfl, hs⟩

lemma doSwipe_flags (s : DState) (liked : Bool) (r loadR : FetchOutcome)
    (hs : s.swiping = false) (hl : s.loading = false) :
    (doSwipe s liked r loadR).swiping = false ∧
      (doSwipe s liked r loadR).loading = false := by
  cases hg : doSwipeGuard s with
  | none => rw [(doSwipe_none s liked r loadR hg).1]; exact ⟨hs, hl⟩
  | some p =>
      obtain ⟨idx, c⟩ := p
      cases r with
      | reject msg => rw [doSwipe_reject s liked msg loadR idx c hg]; exact ⟨hs, hl⟩
      | resolve ok body =>
          cases ok with
          | false => rw [doSwipe_httpErr s liked body loadR idx c hg]; exact ⟨hs, hl⟩
          | true =>
              by_cases hlt : idx + 1 < s.suggestions.length
              · rw [doSwipe_advance s liked body loadR idx c hg hlt]
                exact ⟨rfl, hl⟩
              · rw [doSwipe_exhaust s liked body loadR idx c hg hlt]
                obtain ⟨h1, h2⟩ := load_flags s loadR hs hl
                exact ⟨h2, h1⟩

lemma swipeRequests_loadTrace (s : DState) (r : FetchOutcome) :
    swipeRequests (loadTrace s r) = [] := by
  cases r with
  | reject msg =>
      cases hsw : s.swiping <;> cases hld : s.loading <;>
        simp [loadTrace, hsw, hld, swipeRequests]
  | resolve ok body =>
      cases ok <;> cases hsw : s.swiping <;> cases hld : s.loading <;>
        simp [loadTrace, hsw, hld, swipeRequests]

lemma swipeRequests_append (l1 l2 : List Action) :
    swipeRequests (l1 ++ l2) = swipeRequests l1 ++ swipeRequests l2 := by
  induction l1 with
  | nil => rfl
  | cons a tr ih =>
      cases a with
      | request rq => cases rq <;> simp [swipeRequests, ih]
      | setLoading b => simp [swipeRequests, ih]
      | setSwiping b => simp [swipeRequests, ih]
      | setSuggestions l => simp [swipeRequests, ih]
      | setCurrentIndex n => simp [swipeRequests, ih]
      | alert t m => simp [swipeRequests, ih]

lemma swipeRequests_resume (idx : Nat) (c : Candidate) (r : FetchOutcome)
    (live : DState) (loadR : FetchOutcome) :
    swipeRequests (doSwipeResume idx c r live loadR) = [] := by
  cases r with
  | reject msg => simp [doSwipeResume, swipeRequests]
  | resolve ok body =>
      cases ok with
      | false => simp [doSwipeResume, swipeRequests]
      | true =>
          by_cases hlt : idx + 1 < live.suggestions.length
          · cases hm : body.matchFlag <;>
              simp [doSwipeResume, hlt, hm, swipeRequests, swipeRequests_append]
          · cases hm : body.matchFlag <;>
              simp [doSwipeResume, hlt, hm, swipeRequests, swipeRequests_append,
                swipeRequests_loadTrace]

lemma doSwipeTrace_some (s : DState) (liked : Bool) (r : FetchOutcome)
    (live : DState) (loadR : FetchOutcome) (idx : Nat) (c : Candidate)
    (h : doSwipeGuard s = some (idx, c)) :
    doSwipeTrace s liked r live loadR =
      Action.setSwiping true :: Action.request (Req.swipe c.id liked) ::
        doSwipeResume idx c r live loadR := by
  rw [doSwipeTrace, h]

lemma doSwipeGuard_exhausted (s : DState)
    (h : s.suggestions.length ≤ s.currentIndex) : doSwipeGuard s = none := by
  rw [doSwipeGuard]
  by_cases hb : (s.swiping || s.loading) = true
  · simp [hb]
  · simp [hb, List.getElem?_eq_none h]

lemma lastClearsBusy_loadTrace (s : DState) (r : FetchOutcome)
    (hs : s.swiping = false) (hl : s.loading = false) :
    lastClearsBusy (loadTrace s r) = true := by
  cases r with
  | reject msg => rw [loadTrace_reject s msg hs hl]; rfl
  | resolve ok body =>
      cases ok with
      | false => rw [loadTrace_httpErr s body hs hl]; rfl
      | true => rw [loadTrace_ok s body hs hl]; rfl

lemma lastClearsBusy_doSwipe (s : DState) (liked : Bool) (r loadR : FetchOutcome)
    (idx : Nat) (c : Candidate) (h : doSwipeGuard s = some (idx, c)) :
    lastClearsBusy (doSwipeNormalTrace s liked r loadR) = true := by
  obtain ⟨hs, hl, hi, hg⟩ := doSwipeGuard_spec s idx c h
  rw [doSwipeNormalTrace_some s liked r loadR idx c h]
  cases r with
  | reject msg => rfl
  | resolve ok body =>
      cases ok with
      | false => rfl
      | true =>
          rw [doSwipeResume]
          by_cases hlt :
              idx + 1 < ({ s with swiping := true } : DState).suggestions.length
          · cases hm : body.matchFlag <;>
              simp [hlt, hm, lastClearsBusy, clearsBusy, List.getLast?]
          · cases hm : body.matchFlag <;>
              cases loadR <;>
                simp [hlt, hm, hl, loadTrace, lastClearsBusy, clearsBusy,
                  List.getLast?]

/-! Claims. -/

/-- Claim C1: for every reachable session state — after any sequence of
load and doSwipe operations with any backend responses — the cursor
satisfies 0 <= currentIndex <= suggestions.length. -/
theorem C1_cursor_in_range (s : DState) (h : Reachable s) :
    0 ≤ s.currentIndex ∧ s.currentIndex ≤ s.suggestions.length := by
  refine ⟨Nat.zero_le _, ?_⟩
  induction h with
  | init => simp [init]
  | refillStep s r hr ih => exact inv_load s r ih
  | decideStep s liked r loadR hr ih => exact inv_doSwipe s liked r loadR ih

/-- Witness for C1 at the reachable state reached by one refill that
installed three candidates. -/
theorem C1_witness :
    Reachable (load init (FetchOutcome.resolve true bodyABC)) ∧
    (0 ≤ (load init (FetchOutcome.resolve true bodyABC)).currentIndex ∧
      (load init (FetchOutcome.resolve true bodyABC)).currentIndex ≤
        (load init (FetchOutcome.resolve true bodyABC)).suggestions.length) :=
  ⟨Reachable.refillStep init (FetchOutcome.resolve true bodyABC) Reachable.init,
    C1_cursor_in_range (load init (FetchOutcome.resolve true bodyABC))
      (Reachable.refillStep init (FetchOutcome.resolve true bodyABC) Reachable.init)⟩

/-- Claim C2 counterexample: from the batch [cA] at cursor 0, a
successful decide(false) does not leave the session at cursor 1 ==
length(batch) waiting for the caller to refill: the code leaves the
cursor at 0 and the controller itself issues the list-candidates request
(here with the nested refill failing, so the batch stays [cA] at cursor
0). -/
theorem C2_counterexample :
    (doSwipe sA false (FetchOutcome.resolve true bodyNoMatch) rNet).currentIndex = 0 ∧
    ¬ (doSwipe sA false (FetchOutcome.resolve true bodyNoMatch) rNet).currentIndex = 1 ∧
    Action.request Req.suggestions ∈
      doSwipeNormalTrace sA false (FetchOutcome.resolve true bodyNoMatch) rNet := by
  decide

/-- Claim C2 (amended): if decide(liked) succeeds for the candidate at
the cursor and cursor + 1 < length(batch), the cursor advances by one;
otherwise (the decided candidate was the last in the batch) the
controller leaves its own cursor untouched and itself initiates a refill
— the trace contains the list-candidates request and the post-state is
exactly that of a load from the pre-decide state — rather than setting
cursor = length(batch) and waiting for the caller. -/
theorem C2_amended (s : DState) (liked : Bool) (body : Body)
    (loadR : FetchOutcome) (idx : Nat) (c : Candidate)
    (h : doSwipeGuard s = some (idx, c)) :
    (idx + 1 < s.suggestions.length →
      doSwipe s liked (FetchOutcome.resolve true body) loadR =
        { s with currentIndex := idx + 1, swiping := false }) ∧
    (¬ idx + 1 < s.suggestions.length →
      doSwipe s liked (FetchOutcome.resolve true body) loadR = load s loadR ∧
      Action.request Req.suggestions ∈
        doSwipeNormalTrace s liked (FetchOutcome.resolve true body) loadR) := by
  obtain ⟨hs, hl, hi, hg⟩ := doSwipeGuard_spec s idx c h
  constructor
  · intro hlt
    exact doSwipe_advance s liked body loadR idx c h hlt
  · intro hge
    refine ⟨doSwipe_exhaust s liked body loadR idx c h hge, ?_⟩
    rw [doSwipeNormalTrace_some s liked _ loadR idx c h, doSwipeResume]
    have hlive : ¬ idx + 1 < ({ s with swiping := true } : DState).suggestions.length := by
      simpa using hge
    cases hm : body.matchFlag <;>
      simp [hlive, hm, loadTrace, hl]

/-- Witness for C2 amended at the concrete one-candidate batch. -/
theorem C2_amended_witness :
    doSwipeGuard sA = some (0, cA) ∧
    ¬ 0 + 1 < sA.suggestions.length ∧
    (doSwipe sA false (FetchOutcome.resolve true bodyNoMatch) rNet = load sA rNet ∧
      Action.request Req.suggestions ∈
        doSwipeNormalTrace sA false (FetchOutcome.resolve true bodyNoMatch) rNet) :=
  ⟨by decide, by decide,
    (C2_amended sA false bodyNoMatch rNet 0 cA (by decide)).2 (by decide)⟩

/-- Claim C3: a load or doSwipe call arriving while swiping or loading
is set returns immediately: the session state is unchanged and the trace
is empty, so no network call is issued and the call is dropped, not
queued. -/
theorem C3_busy_noop (s : DState) (liked : Bool) (r loadR : FetchOutcome)
    (h : s.swiping = true ∨ s.loading = true) :
    load s r = s ∧ loadTrace s r = [] ∧
    doSwipe s liked r loadR = s ∧ doSwipeNormalTrace s liked r loadR = [] := by
  obtain ⟨h1, h2⟩ := doSwipe_none s liked r loadR (doSwipeGuard_busy s h)
  exact ⟨load_busy s r h, loadTrace_busy s r h, h1, h2⟩

/-- Witness for C3 at a session with a load in flight. -/
theorem C3_witness :
    (sBusy.swiping = true ∨ sBusy.loading = true) ∧
    (load sBusy rNet = sBusy ∧ loadTrace sBusy rNet = [] ∧
      doSwipe sBusy true rNet rNet = sBusy ∧
      doSwipeNormalTrace sBusy true rNet rNet = []) :=
  ⟨Or.inr rfl, C3_busy_noop sBusy true rNet rNet (Or.inr rfl)⟩

/-- Claim C4: doSwipe captures the candidate at the cursor before its
first suspension point; whatever state the session has been externally
replaced or reset to while the call is in flight (the live state is
arbitrary), the only swipe request in the trace carries the captured
candidate's id, and the match alert names the captured candidate — never
whatever sits at the new cursor. -/
theorem C4_snapshot (s : DState) (liked : Bool) (r loadR : FetchOutcome)
    (live : DState) (body : Body) (idx : Nat) (c : Candidate)
    (h : doSwipeGuard s = some (idx, c)) (hm : body.matchFlag = true) :
    s.suggestions[idx]? = some c ∧
    swipeRequests (doSwipeTrace s liked r live loadR) = [Req.swipe c.id liked] ∧
    Action.alert "itsAMatch" (c.name ++ "!") ∈
      doSwipeTrace s liked (FetchOutcome.resolve true body) live loadR := by
  obtain ⟨hs, hl, hi, hg⟩ := doSwipeGuard_spec s idx c h
  refine ⟨hg, ?_, ?_⟩
  · rw [doSwipeTrace_some s liked r live loadR idx c h]
    simp [swipeRequests, swipeRequests_resume]
  · rw [doSwipeTrace_some s liked (FetchOutcome.resolve true body) live loadR idx c h,
      doSwipeResume]
    simp [hm]

/-- Witness for C4: decide on the one-candidate batch while the session
has been externally reset mid-flight to a different batch and cursor
(sReset); the swipe request still targets candidate A and the match
alert still names A. -/
theorem C4_witness :
    doSwipeGuard sA = some (0, cA) ∧ bodyMatch.matchFlag = true ∧
    (sA.suggestions[0]? = some cA ∧
      swipeRequests (doSwipeTrace sA true rNet sReset rNet) =
        [Req.swipe cA.id true] ∧
      Action.alert "itsAMatch" (cA.name ++ "!") ∈
        doSwipeTrace sA true (FetchOutcome.resolve true bodyMatch) sReset rNet) :=
  ⟨by decide, rfl,
    C4_snapshot sA true rNet rNet sReset bodyMatch 0 cA (by decide) rfl⟩

/-- Claim C5: a refill whose backend request succeeds with suggestion
list S (possibly empty) replaces the batch with exactly S in order,
resets the cursor to 0, raises no error alert, ends with both busy flags
false, and makes the head of S the current candidate. -/
theorem C5_refill_success (s : DState) (body : Body)
    (hs : s.swiping = false) (hl : s.loading = false) :
    load s (FetchOutcome.resolve true body) =
      DState.mk (body.suggestions.getD []) 0 false false ∧
    loadReturn s (FetchOutcome.resolve true body) = body.suggestions.getD [] ∧
    noAlerts (loadTrace s (FetchOutcome.resolve true body)) = true ∧
    currentProfile (load s (FetchOutcome.resolve true body)) =
      (body.suggestions.getD [])[0]? := by
  have h2 : load s (FetchOutcome.resolve true body) =
      DState.mk (body.suggestions.getD []) 0 false false := by
    rw [load_ok s body hs hl]
    cases s
    simp_all
  refine ⟨h2, ?_, ?_, ?_⟩
  · simp [loadReturn, hs, hl]
  · rw [loadTrace_ok s body hs hl]
    rfl
  · rw [currentProfile, h2]

/-- Witness for C5 at the initial state with the backend returning the
three-candidate batch; the current candidate becomes cA. -/
theorem C5_witness :
    init.swiping = false ∧ init.loading = false ∧
    (load init (FetchOutcome.resolve true bodyABC) =
        DState.mk (bodyABC.suggestions.getD []) 0 false false ∧
      loadReturn init (FetchOutcome.resolve true bodyABC) =
        bodyABC.suggestions.getD [] ∧
      noAlerts (loadTrace init (FetchOutcome.resolve true bodyABC)) = true ∧
      currentProfile (load init (FetchOutcome.resolve true bodyABC)) =
        (bodyABC.suggestions.getD [])[0]?) :=
  ⟨rfl, rfl, C5_refill_success init bodyABC rfl rfl⟩

/-- Claim C6: a refill whose backend request fails — rejected, non-2xx,
or unparsable — leaves the batch and the cursor exactly as they were
(the post-state equals the pre-state, whose loading flag was already
false, so busy is back to false), and raises an alert carrying the
failure description. -/
theorem C6_refill_failure (s : DState) (msg : String) (body : Body)
    (hs : s.swiping = false) (hl : s.loading = false) :
    load s (FetchOutcome.reject msg) = s ∧
    Action.alert "discover" msg ∈ loadTrace s (FetchOutcome.reject msg) ∧
    load s (FetchOutcome.resolve false body) = s ∧
    Action.alert "discover" (jsDetail body.detail) ∈
      loadTrace s (FetchOutcome.resolve false body) := by
  refine ⟨load_reject s msg hs hl, ?_, load_httpErr s body hs hl, ?_⟩
  · rw [loadTrace_reject s msg hs hl]
    simp
  · rw [loadTrace_httpErr s body hs hl]
    simp

/-- Witness for C6 at the idle three-candidate session with a network
rejection and a non-2xx response. -/
theorem C6_witness :
    sABC.swiping = false ∧ sABC.loading = false ∧
    (load sABC (FetchOutcome.reject "Network request failed") = sABC ∧
      Action.alert "discover" "Network request failed" ∈
        loadTrace sABC (FetchOutcome.reject "Network request failed") ∧
      load sABC (FetchOutcome.resolve false bodyErr) = sABC ∧
      Action.alert "discover" (jsDetail bodyErr.detail) ∈
        loadTrace sABC (FetchOutcome.resolve false bodyErr)) :=
  ⟨rfl, rfl, C6_refill_failure sABC "Network request failed" bodyErr rfl rfl⟩

/-- Claim C7: a doSwipe whose record-decision request fails leaves the
cursor (indeed the whole state) unchanged so the same candidate remains
current, raises the error alert, and resets swiping to false as the last
action of the trace — and in every path, success included, the final
action of the trace is the one clearing a busy flag, so the busy reset
happens strictly after the cursor/error update. -/
theorem C7_decide_failure_order (s : DState) (liked : Bool) (msg : String)
    (body : Body) (r loadR : FetchOutcome) (idx : Nat) (c : Candidate)
    (h : doSwipeGuard s = some (idx, c)) :
    doSwipe s liked (FetchOutcome.reject msg) loadR = s ∧
    doSwipeNormalTrace s liked (FetchOutcome.reject msg) loadR =
      [Action.setSwiping true, Action.request (Req.swipe c.id liked),
       Action.alert "discover" msg, Action.setSwiping false] ∧
    doSwipe s liked (FetchOutcome.resolve false body) loadR = s ∧
    doSwipeNormalTrace s liked (FetchOutcome.resolve false body) loadR =
      [Action.setSwiping true, Action.request (Req.swipe c.id liked),
       Action.alert "discover" (jsDetail body.detail), Action.setSwiping false] ∧
    lastClearsBusy (doSwipeNormalTrace s liked r loadR) = true := by
  refine ⟨doSwipe_reject s liked msg loadR idx c h, ?_,
    doSwipe_httpErr s liked body loadR idx c h, ?_,
    lastClearsBusy_doSwipe s liked r loadR idx c h⟩
  · rw [doSwipeNormalTrace_some s liked (FetchOutcome.reject msg) loadR idx c h]
    rfl
  · rw [doSwipeNormalTrace_some s liked (FetchOutcome.resolve false body) loadR idx c h]
    rfl

/-- Witness for C7 at the three-candidate session, with a rejected call,
a non-2xx response, and (for the ordering conjunct) a successful
decision. -/
theorem C7_witness :
    doSwipeGuard sABC = some (0, cA) ∧
    (doSwipe sABC true (FetchOutcome.reject "Boom") rNet = sABC ∧
      doSwipeNormalTrace sABC true (FetchOutcome.reject "Boom") rNet =
        [Action.setSwiping true, Action.request (Req.swipe cA.id true),
         Action.alert "discover" "Boom", Action.setSwiping false] ∧
      doSwipe sABC true (FetchOutcome.resolve false bodyErr) rNet = sABC ∧
      doSwipeNormalTrace sABC true (FetchOutcome.resolve false bodyErr) rNet =
        [Action.setSwiping true, Action.request (Req.swipe cA.id true),
         Action.alert "discover" (jsDetail bodyErr.detail), Action.setSwiping false] ∧
      lastClearsBusy
        (doSwipeNormalTrace sABC true (FetchOutcome.resolve true bodyNoMatch) rNet) =
        true) :=
  ⟨by decide,
    C7_decide_failure_order sABC true "Boom" bodyErr
      (FetchOutcome.resolve true bodyNoMatch) rNet 0 cA (by decide)⟩

/-- Claim C8: a doSwipe issued when the cursor is at or past the end of
the batch (the empty batch included) is a silent no-op: the state is
unchanged and the trace is empty, so no network call is issued and no
error is reported. -/
theorem C8_decide_no_candidate (s : DState) (liked : Bool)
    (r loadR : FetchOutcome) (h : s.suggestions.length ≤ s.currentIndex) :
    doSwipe s liked r loadR = s ∧ doSwipeNormalTrace s liked r loadR = [] :=
  doSwipe_none s liked r loadR (doSwipeGuard_exhausted s h)

/-- Witness for C8 at the exhausted one-candidate session. -/
theorem C8_witness :
    sExh.suggestions.length ≤ sExh.currentIndex ∧
    (doSwipe sExh false rNet rNet = sExh ∧
      doSwipeNormalTrace sExh false rNet rNet = []) :=
  ⟨by decide, C8_decide_no_candidate sExh false rNet rNet (by decide)⟩

/-- Claim C9: both operations are total functions of the backend outcome
— every constructor of FetchOutcome, rejection and malformed bodies
included, is mapped to an updated state, mirroring the try/catch/finally
of the source that never lets an exception past the controller — and
from a quiescent state every outcome ends with both busy flags false
again, never a stuck or throwing operation. -/
theorem C9_never_throws (s : DState) (liked : Bool) (r loadR : FetchOutcome)
    (hs : s.swiping = false) (hl : s.loading = false) :
    (load s r).loading = false ∧ (load s r).swiping = false ∧
    (doSwipe s liked r loadR).swiping = false ∧
    (doSwipe s liked r loadR).loading = false := by
  obtain ⟨h1, h2⟩ := load_flags s r hs hl
  obtain ⟨h3, h4⟩ := doSwipe_flags s liked r loadR hs hl
  exact ⟨h1, h2, h3, h4⟩

/-- Witness for C9 at the idle three-candidate session with a network
rejection on both operations. -/
theorem C9_witness :
    sABC.swiping = false ∧ sABC.loading = false ∧
    ((load sABC rNet).loading = false ∧ (load sABC rNet).swiping = false ∧
      (doSwipe sABC true rNet rNet).swiping = false ∧
      (doSwipe sABC true rNet rNet).loading = false) :=
  ⟨rfl, rfl, C9_never_throws sABC true rNet rNet rfl rfl⟩

/-- Claim C10: the load promise always resolves to a list — the empty
list when the call is dropped while busy, the empty list on a rejected
call and on a non-2xx response, and exactly the newly installed batch on
success — so the resolved value never distinguishes dropped from failed
and is never a rejection. -/
theorem C10_load_return_contract (s : DState) (r : FetchOutcome)
    (msg : String) (body bodyF : Body) :
    ((s.swiping = true ∨ s.loading = true) → loadReturn s r = []) ∧
    loadReturn s (FetchOutcome.reject msg) = [] ∧
    loadReturn s (FetchOutcome.resolve false bodyF) = [] ∧
    (s.swiping = false → s.loading = false →
      loadReturn s (FetchOutcome.resolve true body) =
        (load s (FetchOutcome.resolve true body)).suggestions) := by
  refine ⟨?_, ?_, ?_, ?_⟩
  · intro hb
    rcases hb with hb | hb <;> simp [loadReturn, hb]
  · by_cases hsw : s.swiping = true
    · simp [loadReturn, hsw]
    · by_cases hld : s.loading = true
      · simp [loadReturn, hld]
      · rw [Bool.not_eq_true] at hsw hld
        simp [loadReturn, hsw, hld]
  · by_cases hsw : s.swiping = true
    · simp [loadReturn, hsw]
    · by_cases hld : s.loading = true
      · simp [loadReturn, hld]
      · rw [Bool.not_eq_true] at hsw hld
        simp [loadReturn, hsw, hld]
  · intro hs hl
    rw [load_ok s body hs hl]
    simp [loadReturn, hs, hl]

/-- Witness for C10: a busy session and an idle one, with rejection,
non-2xx, and success outcomes. -/
theorem C10_witness :
    loadReturn sBusy rNet = [] ∧
    loadReturn sABC (FetchOutcome.reject "Network request failed") = [] ∧
    loadReturn sABC (FetchOutcome.resolve false bodyErr) = [] ∧
    loadReturn sABC (FetchOutcome.resolve true bodyABC) =
      (load sABC (FetchOutcome.resolve true bodyABC)).suggestions :=
  ⟨(C10_load_return_contract sBusy rNet "x" bodyABC bodyErr).1 (Or.inr rfl),
    (C10_load_return_contract sABC rNet "Network request failed" bodyABC bodyErr).2.1,
    (C10_load_return_contract sABC rNet "x" bodyABC bodyErr).2.2.1,
    (C10_load_return_contract sABC rNet "x" bodyABC bodyErr).2.2.2 rfl rfl⟩

end Discover
